import Mathlib

/-!
# Inventory item service of go-shopify (`inventory_item.go`)

A shallow embedding of the four operations of `InventoryItemServiceOp`
(`List`, `ListWithPagination`, `Get`, `Update`) together with the pieces of
the Go runtime they rely on (`fmt.Sprintf` with `%s` and `%d`,
`errors.Wrap`, `http.Header.Get`), followed by the properties of the
specification proved about them.

Conventions of the embedding:
* a Go pointer `*T` is an `Option T`, `nil` being `none`;
* a Go slice `[]T` is an `Option (List T)`, the nil slice being `none`;
* a Go `error` is an `Option GoError`, `nil` being `none`;
* `int64` values are integers (`Int`); every theorem quantifying over
  identifiers holds for all integers, hence for all `int64`;
* the shared client is stateful: each of its methods takes the client state
  and returns the new state; the service additionally records every call it
  makes on the client in a trace.
-/

namespace GoShopify

/-! ## Go runtime pieces -/

/-- The byte `'0' + d` of Go's integer formatter. -/
def digitByte (d : Nat) : Char := Char.ofNat (48 + d)

/-- The base-10 loop of `fmt.(*fmt).fmtInteger`:
`for u >= 10 { i--; next := u / 10; buf[i] = byte('0' + u - next*10); u = next }`
followed by `i--; buf[i] = digits[u]`.  The buffer is filled from the right,
so each digit is put in front of what has been written so far. -/
def fmtUnsigned (u : Nat) (buf : List Char) : List Char :=
  if h : 10 ≤ u then
    fmtUnsigned (u / 10) (digitByte (u - (u / 10) * 10) :: buf)
  else
    digitByte u :: buf
termination_by u
decreasing_by omega

/-- The verb `%d` applied to a signed integer: `negative := int64(u) < 0`,
`if negative { u = -u }`, the digits, then `'-'` in front when negative. -/
def fmtInteger (n : Int) : List Char :=
  let negative := decide (n < 0)
  let u := n.natAbs
  let buf := fmtUnsigned u []
  if negative then '-' :: buf else buf

/-- The constant `inventoryItemsBasePath`. -/
def inventoryItemsBasePath : String := "inventory_items"

/-- The result of `fmt.Sprintf("%s.json", base)`. -/
def sprintfCollectionPath (base : String) : String :=
  String.mk (base.data ++ ".json".data)

/-- The result of `fmt.Sprintf("%s/%d.json", base, id)`. -/
def sprintfItemPath (base : String) (id : Int) : String :=
  String.mk (base.data ++ ('/' :: (fmtInteger id ++ ".json".data)))

/-- An error value.  `leaf` is an error created elsewhere (by the shared
client or the pagination extractor) with its message; `withMessage` is the
value built by `errors.Wrap` (the recorded call stack is not modelled). -/
inductive GoError where
  | leaf (msg : String)
  | withMessage (cause : GoError) (msg : String)
  deriving DecidableEq

/-- The method `Error()`: a wrapped error prints as `msg + ": " + cause.Error()`. -/
def GoError.Error : GoError → String
  | .leaf msg => msg
  | .withMessage cause msg => msg ++ ": " ++ cause.Error

/-- The function `errors.Wrap(err, message)`: nil when `err` is nil, otherwise
`err` annotated with `message`. -/
def errorsWrap (err : Option GoError) (message : String) : Option GoError :=
  match err with
  | none => none
  | some e => some (GoError.withMessage e message)

/-- A value of `http.Header`: canonical header names with their values. -/
abbrev Header := List (String × List String)

/-- The method `http.Header.Get` for a key already in canonical form (as
`"Link"` is): the first value stored under the key, `""` when there is none. -/
def Header.Get (h : Header) (key : String) : String :=
  match h.lookup key with
  | none => ""
  | some [] => ""
  | some (v :: _) => v

/-! ## Data model -/

/-- A value of `time.Time`, kept as the instant it denotes (seconds and
nanoseconds since the epoch); the service never inspects it. -/
structure Time where
  sec : Int
  nsec : Nat
  deriving DecidableEq

/-- A value of `decimal.Decimal`: `value * 10 ^ exp`, an arbitrary-precision
decimal; the service never inspects it. -/
structure Decimal where
  value : Int
  exp : Int
  deriving DecidableEq

/-- The struct `InventoryItem`. -/
structure InventoryItem where
  ID : Int
  SKU : String
  CreatedAt : Option Time
  UpdatedAt : Option Time
  Cost : Option Decimal
  Tracked : Option Bool
  AdminGraphqlAPIID : String
  deriving DecidableEq

/-- The struct `InventoryItemResource`, the single-item envelope. -/
structure InventoryItemResource where
  InventoryItem : Option InventoryItem
  deriving DecidableEq

/-- The struct `InventoryItemsResource`, the collection envelope. -/
structure InventoryItemsResource where
  InventoryItems : Option (List InventoryItem)
  deriving DecidableEq

/-- The value `new(InventoryItemResource)`: a zeroed single-item envelope. -/
def newInventoryItemResource : InventoryItemResource := { InventoryItem := none }

/-- The value `new(InventoryItemsResource)`: a zeroed collection envelope. -/
def newInventoryItemsResource : InventoryItemsResource := { InventoryItems := none }

/-- Modelled from the spec: the type `Pagination` is declared outside
`inventory_item.go`.  Spec section 3: a cursor set "holds zero or one next
page token and zero or one previous page token, each an opaque
query-parameter bundle extracted from a URL"; a bundle is kept as the list of
its retained `key=value` pairs. -/
structure Pagination where
  NextPageOptions : Option (List (String × String))
  PreviousPageOptions : Option (List (String × String))
  deriving DecidableEq

/-! ## The shared client -/

/-- One call made on the shared client, with the arguments that describe the
request (`Opt` is the type of the `options interface{}` value). -/
inductive Call (Opt : Type) where
  | createAndDoGetHeaders (method path : String) (data : Option InventoryItemResource)
      (options : Opt)
  | Get (path : String) (options : Opt)
  | Put (path : String) (data : InventoryItemResource)
  deriving DecidableEq

/-- The behaviour of the shared client `*Client`, which is not part of
`inventory_item.go` and is left arbitrary.  `σ` is the client's own state
(connection, rate limits, the server behind it).  Every method receives the
state and the envelope the caller allocated, and returns the new state, the
envelope as the client left it, and the error. -/
structure Client (σ Opt : Type) where
  createAndDoGetHeaders : σ → String → String → Option InventoryItemResource → Opt →
    InventoryItemsResource → σ × InventoryItemsResource × Header × Option GoError
  Get : σ → String → InventoryItemResource → Opt →
    σ × InventoryItemResource × Option GoError
  Put : σ → String → InventoryItemResource → InventoryItemResource →
    σ × InventoryItemResource × Option GoError

/-- The state threaded through the service: the client's state and the trace
of the calls made on the client so far. -/
@[ext]
structure Session (σ Opt : Type) where
  client : σ
  calls : List (Call Opt)
  deriving DecidableEq

/-! ## The service `InventoryItemServiceOp` -/

/-- The method `ListWithPagination`.  `extractPagination` is the pagination
extractor, declared outside `inventory_item.go`; it returns a pair
`(*Pagination, error)`. -/
def InventoryItemServiceOp.ListWithPagination {σ Opt : Type} (c : Client σ Opt)
    (extractPagination : String → Option Pagination × Option GoError)
    (s : Session σ Opt) (options : Opt) :
    Session σ Opt × Option (List InventoryItem) × Option Pagination × Option GoError :=
  let path := sprintfCollectionPath inventoryItemsBasePath
  let resource := newInventoryItemsResource
  let r := c.createAndDoGetHeaders s.client "GET" path none options resource
  let s1 : Session σ Opt :=
    { client := r.1, calls := s.calls ++ [Call.createAndDoGetHeaders "GET" path none options] }
  let resource := r.2.1
  let headers := r.2.2.1
  let err := r.2.2.2
  if err ≠ none then
    (s1, none, none, errorsWrap err "error getting resource with headers")
  else
    let linkHeader := headers.Get "Link"
    let p := extractPagination linkHeader
    let pagination := p.1
    let err := p.2
    if err ≠ none then
      (s1, none, none, errorsWrap err "error getting pagination from link header")
    else
      (s1, resource.InventoryItems, pagination, err)

/-- The method `List`. -/
def InventoryItemServiceOp.List {σ Opt : Type} (c : Client σ Opt)
    (extractPagination : String → Option Pagination × Option GoError)
    (s : Session σ Opt) (options : Opt) :
    Session σ Opt × Option (List InventoryItem) × Option GoError :=
  let r := InventoryItemServiceOp.ListWithPagination c extractPagination s options
  let items := r.2.1
  let err := r.2.2.2
  if err ≠ none then
    (r.1, none, errorsWrap err "error in list subprocess")
  else
    (r.1, items, none)

/-- The method `Get`. -/
def InventoryItemServiceOp.Get {σ Opt : Type} (c : Client σ Opt) (s : Session σ Opt)
    (id : Int) (options : Opt) :
    Session σ Opt × Option InventoryItem × Option GoError :=
  let path := sprintfItemPath inventoryItemsBasePath id
  let resource := newInventoryItemResource
  let r := c.Get s.client path resource options
  let s1 : Session σ Opt := { client := r.1, calls := s.calls ++ [Call.Get path options] }
  let resource := r.2.1
  let err := r.2.2
  (s1, resource.InventoryItem, err)

/-- The method `Update`. -/
def InventoryItemServiceOp.Update {σ Opt : Type} (c : Client σ Opt) (s : Session σ Opt)
    (item : InventoryItem) :
    Session σ Opt × Option InventoryItem × Option GoError :=
  let path := sprintfItemPath inventoryItemsBasePath item.ID
  let wrappedData : InventoryItemResource := { InventoryItem := some item }
  let resource := newInventoryItemResource
  let r := c.Put s.client path wrappedData resource
  let s1 : Session σ Opt := { client := r.1, calls := s.calls ++ [Call.Put path wrappedData] }
  let resource := r.2.1
  let err := r.2.2
  (s1, resource.InventoryItem, err)

/-! ## The pagination extractor -/

/-- Modelled from the spec: the "empty cursor set" of spec section 4.2, step 1,
with neither a next nor a previous bundle. -/
def emptyPagination : Pagination := { NextPageOptions := none, PreviousPageOptions := none }

/-- Modelled from the spec: "split on commas into entries" (spec section 4.2,
step 2), for any separator character (the query string is split on `&` the
same way); the empty text gives one empty piece. -/
def splitOn (sep : Char) : List Char → List (List Char)
  | [] => [[]]
  | c :: cs =>
    if c = sep then [] :: splitOn sep cs
    else
      match splitOn sep cs with
      | [] => [[c]]
      | e :: es => (c :: e) :: es

/-- Modelled from the spec: "for each entry, trim whitespace" (spec section
4.2, step 2): the white space at both ends is removed. -/
def trimSpace (cs : List Char) : List Char :=
  ((cs.dropWhile Char.isWhitespace).reverse.dropWhile Char.isWhitespace).reverse

/-- Modelled from the spec: matching one entry against the pattern
`<URL>; rel="REL"` (spec section 4.2, step 2); the result is the URL and the
relation, or nothing when the entry does not have that form. -/
def matchEntry (entry : List Char) : Option (List Char × List Char) :=
  match entry with
  | '<' :: rest =>
    let url := rest.takeWhile (fun c => c != '>')
    match rest.dropWhile (fun c => c != '>') with
    | '>' :: ';' :: ' ' :: 'r' :: 'e' :: 'l' :: '=' :: '"' :: tail =>
      let rel := tail.takeWhile (fun c => c != '"')
      if tail.dropWhile (fun c => c != '"') = ['"'] then some (url, rel) else none
    | _ => none
  | _ => none

/-- Modelled from the spec: "parse the URL's query string and retain only the
recognized pagination parameters (typically a page-info token and a
limit/page-size), discarding the rest of the URL" (spec section 4.2, step 3). -/
def paginationParams (url : List Char) : List (String × String) :=
  let query := (url.dropWhile (fun c => c != '?')).drop 1
  let pairs := (splitOn '&' query).map (fun kv =>
    (String.mk (kv.takeWhile (fun c => c != '=')),
     String.mk ((kv.dropWhile (fun c => c != '=')).drop 1)))
  pairs.filter (fun kv => kv.1 = "page_info" ∨ kv.1 = "limit")

/-- Modelled from the spec: steps 2 to 5 of spec section 4.2 over the entries
of the header, filling the cursor set from left to right (a later entry with
the same relation overwrites an earlier one); a malformed entry or a relation
other than `next` and `previous` fails the whole parse. -/
def extractEntries : List (List Char) → Pagination → Option Pagination × Option GoError
  | [], pagination => (some pagination, none)
  | entry :: rest, pagination =>
    match matchEntry (trimSpace entry) with
    | none => (none, some (GoError.leaf "could not extract pagination link header"))
    | some (url, rel) =>
      if rel = "next".data then
        extractEntries rest { pagination with NextPageOptions := some (paginationParams url) }
      else if rel = "previous".data then
        extractEntries rest { pagination with PreviousPageOptions := some (paginationParams url) }
      else
        (none, some (GoError.leaf "unrecognized pagination relation"))

/-- Modelled from the spec: the function `extractPagination` is declared
outside `inventory_item.go`.  Spec section 4.2: "If the input string is empty,
return an empty cursor set (no error)"; otherwise "split on commas into
entries" and treat each entry as in `extractEntries`. -/
def extractPagination (linkHeader : String) : Option Pagination × Option GoError :=
  if linkHeader = "" then (some emptyPagination, none)
  else extractEntries (splitOn ',' linkHeader.data) emptyPagination

/-! ## The requests of the service and the client's answers -/

/-- The answer of the shared client to the request of `ListWithPagination`:
`createAndDoGetHeaders("GET", "inventory_items.json", nil, options, resource)`
with a freshly allocated collection envelope. -/
def listResponse {σ Opt : Type} (c : Client σ Opt) (s : Session σ Opt) (options : Opt) :
    σ × InventoryItemsResource × Header × Option GoError :=
  c.createAndDoGetHeaders s.client "GET" "inventory_items.json" none options
    { InventoryItems := none }

/-- The answer of the shared client to the request of `Get`:
`Get("inventory_items/<id>.json", resource, options)` with a freshly allocated
single-item envelope. -/
def getResponse {σ Opt : Type} (c : Client σ Opt) (s : Session σ Opt) (id : Int)
    (options : Opt) : σ × InventoryItemResource × Option GoError :=
  c.Get s.client ("inventory_items/" ++ toString id ++ ".json") { InventoryItem := none } options

/-- The answer of the shared client to the request of `Update`:
`Put("inventory_items/<item.ID>.json", wrappedData, resource)` with the item
wrapped in the single-item envelope and a freshly allocated envelope for the
response. -/
def putResponse {σ Opt : Type} (c : Client σ Opt) (s : Session σ Opt) (item : InventoryItem) :
    σ × InventoryItemResource × Option GoError :=
  c.Put s.client ("inventory_items/" ++ toString item.ID ++ ".json")
    { InventoryItem := some item } { InventoryItem := none }

/-! ## Auxiliary definitions -/

/-- Reading a run of decimal digits back as a number. -/
def readDigits (cs : List Char) : Nat :=
  cs.foldl (fun a c => 10 * a + (c.toNat - 48)) 0

/-! ## Sample clients -/

/-- An inventory item as the platform returns it. -/
def sampleItem : InventoryItem :=
  { ID := 42, SKU := "sku-42", CreatedAt := none, UpdatedAt := some { sec := 1700000000, nsec := 0 },
    Cost := some { value := 1999, exp := -2 }, Tracked := some true,
    AdminGraphqlAPIID := "gid://shopify/InventoryItem/42" }

/-- A client whose requests all succeed: the list holds `sampleItem` and comes
with the given values of the `Link` header, `Get` finds a null item, `Put`
echoes the item sent.  Its state counts the requests. -/
def okClient (link : List String) : Client Nat (List (String × String)) where
  createAndDoGetHeaders := fun st _ _ _ _ _ =>
    (st + 1, { InventoryItems := some [sampleItem] }, [("Link", link)], none)
  Get := fun st _ _ _ => (st + 1, { InventoryItem := none }, none)
  Put := fun st _ data _ => (st + 1, data, none)

/-- A client whose requests all fail before anything is decoded: the envelope
is left as it was given. -/
def downClient : Client Nat (List (String × String)) where
  createAndDoGetHeaders := fun st _ _ _ _ resource =>
    (st + 1, resource, [], some (GoError.leaf "connection refused"))
  Get := fun st _ resource _ => (st + 1, resource, some (GoError.leaf "connection refused"))
  Put := fun st _ _ resource => (st + 1, resource, some (GoError.leaf "connection refused"))

/-- A client that fills the envelope and then reports an error (as a decoder
does when a later field of the body has the wrong type). -/
def halfwayClient : Client Nat (List (String × String)) where
  createAndDoGetHeaders := fun st _ _ _ _ _ =>
    (st + 1, { InventoryItems := some [sampleItem] }, [], some (GoError.leaf "cannot unmarshal"))
  Get := fun st _ _ _ =>
    (st + 1, { InventoryItem := some sampleItem }, some (GoError.leaf "cannot unmarshal"))
  Put := fun st _ data _ => (st + 1, data, some (GoError.leaf "cannot unmarshal"))

/-- A session in which nothing has been requested yet. -/
def freshSession : Session Nat (List (String × String)) := { client := 0, calls := [] }

/-! ## Lemmas on the formatting of integers and paths -/

theorem digitByte_toNat (d : Nat) (h : d < 10) : (digitByte d).toNat = 48 + d := by
  interval_cases d <;> rfl

theorem digitByte_eq_digitChar (d : Nat) (h : d < 10) : digitByte d = Nat.digitChar d := by
  interval_cases d <;> rfl

theorem digitByte_ne_minus (d : Nat) (h : d < 10) : digitByte d ≠ '-' := by
  interval_cases d <;> decide

theorem fmtUnsigned_lt (u : Nat) (buf : List Char) (h : u < 10) :
    fmtUnsigned u buf = digitByte u :: buf := by
  rw [fmtUnsigned, dif_neg (by omega)]

theorem fmtUnsigned_ge (u : Nat) (buf : List Char) (h : 10 ≤ u) :
    fmtUnsigned u buf = fmtUnsigned (u / 10) (digitByte (u - (u / 10) * 10) :: buf) := by
  rw [fmtUnsigned, dif_pos h]

/-- The digits are written in front of the buffer, which is left as it was. -/
theorem fmtUnsigned_append (u : Nat) : ∀ buf : List Char,
    fmtUnsigned u buf = fmtUnsigned u [] ++ buf := by
  induction u using Nat.strong_induction_on with
  | _ u ih =>
    intro buf
    by_cases h : 10 ≤ u
    · rw [fmtUnsigned_ge u buf h, fmtUnsigned_ge u [] h,
        ih (u / 10) (by omega) (_ :: buf), ih (u / 10) (by omega) [_]]
      simp
    · rw [fmtUnsigned_lt u buf (by omega), fmtUnsigned_lt u [] (by omega)]
      simp

/-- The formatter starts with a digit. -/
theorem fmtUnsigned_head (u : Nat) : ∀ buf : List Char,
    ∃ d, d < 10 ∧ ∃ t, fmtUnsigned u buf = digitByte d :: t := by
  induction u using Nat.strong_induction_on with
  | _ u ih =>
    intro buf
    by_cases h : 10 ≤ u
    · rw [fmtUnsigned_ge u buf h]
      exact ih (u / 10) (by omega) _
    · exact ⟨u, by omega, buf, fmtUnsigned_lt u buf (by omega)⟩

theorem readDigits_fmtUnsigned (u : Nat) : readDigits (fmtUnsigned u []) = u := by
  induction u using Nat.strong_induction_on with
  | _ u ih =>
    by_cases h : 10 ≤ u
    · rw [fmtUnsigned_ge u [] h, fmtUnsigned_append]
      have h1 := ih (u / 10) (by omega)
      unfold readDigits at h1 ⊢
      rw [List.foldl_append, h1]
      simp only [List.foldl_cons, List.foldl_nil]
      rw [digitByte_toNat _ (by omega)]
      omega
    · rw [fmtUnsigned_lt u [] (by omega)]
      simp only [readDigits, List.foldl_cons, List.foldl_nil]
      rw [digitByte_toNat _ (by omega)]
      omega

theorem fmtUnsigned_injective (a b : Nat) (h : fmtUnsigned a [] = fmtUnsigned b []) : a = b := by
  rw [← readDigits_fmtUnsigned a, ← readDigits_fmtUnsigned b, h]

theorem fmtUnsigned_ne_minus (u : Nat) (t : List Char) : fmtUnsigned u [] ≠ '-' :: t := by
  obtain ⟨d, hd, t', ht⟩ := fmtUnsigned_head u []
  rw [ht]
  intro h
  exact digitByte_ne_minus d hd (List.cons.inj h).1

/-- Two integers with the same `%d` text are equal. -/
theorem fmtInteger_injective (a b : Int) (h : fmtInteger a = fmtInteger b) : a = b := by
  unfold fmtInteger at h
  by_cases ha : a < 0 <;> by_cases hb : b < 0 <;> simp [ha, hb] at h
  · have := fmtUnsigned_injective _ _ h
    omega
  · exact absurd h.symm (fmtUnsigned_ne_minus _ _)
  · exact absurd h (fmtUnsigned_ne_minus _ _)
  · have := fmtUnsigned_injective _ _ h
    omega

/-- The formatter agrees with the decimal digits of the standard library. -/
theorem toDigitsCore_eq_fmtUnsigned : ∀ (fuel u : Nat) (ds : List Char), u < fuel →
    Nat.toDigitsCore 10 fuel u ds = fmtUnsigned u ds := by
  intro fuel
  induction fuel with
  | zero => intro u ds h; omega
  | succ f ih =>
    intro u ds h
    rw [Nat.toDigitsCore]
    by_cases hu : 10 ≤ u
    · have h0 : ¬ (u / 10 = 0) := by omega
      simp only [h0, if_false]
      rw [ih (u / 10) _ (by omega), fmtUnsigned_ge u ds hu,
        ← digitByte_eq_digitChar _ (Nat.mod_lt _ (by decide))]
      congr 3
      omega
    · have h0 : u / 10 = 0 := by omega
      simp only [h0, if_true]
      rw [fmtUnsigned_lt u ds (by omega), ← digitByte_eq_digitChar _ (Nat.mod_lt _ (by decide))]
      congr 2
      omega

theorem fmtInteger_eq_toString (n : Int) : String.mk (fmtInteger n) = toString n := by
  cases n with
  | ofNat m =>
    have h : ¬ ((Int.ofNat m) < 0) := by simp
    show String.mk (fmtInteger (Int.ofNat m)) = (Nat.toDigits 10 m).asString
    unfold fmtInteger
    simp only [h, decide_False, Bool.false_eq_true, if_false, Int.natAbs_ofNat, Nat.toDigits,
      List.asString]
    rw [toDigitsCore_eq_fmtUnsigned _ _ _ (by omega)]
    rfl
  | negSucc m =>
    have h : (Int.negSucc m) < 0 := Int.negSucc_lt_zero m
    show String.mk (fmtInteger (Int.negSucc m)) = "-" ++ (Nat.toDigits 10 (m + 1)).asString
    unfold fmtInteger
    simp only [h, decide_True, if_true, Int.natAbs_negSucc, Nat.toDigits, List.asString]
    rw [toDigitsCore_eq_fmtUnsigned _ _ _ (by omega)]
    rfl

/-- The item path is the base path, a slash, the identifier in decimal and
the suffix `.json`. -/
theorem sprintfItemPath_eq (base : String) (id : Int) :
    sprintfItemPath base id = base ++ "/" ++ toString id ++ ".json" := by
  rw [← fmtInteger_eq_toString]
  apply String.ext
  simp [sprintfItemPath, String.data_append]

theorem sprintfCollectionPath_eq (base : String) :
    sprintfCollectionPath base = base ++ ".json" := by
  apply String.ext
  simp [sprintfCollectionPath, String.data_append]

theorem sprintfItemPath_injective (base : String) (a b : Int)
    (h : sprintfItemPath base a = sprintfItemPath base b) : a = b := by
  unfold sprintfItemPath at h
  have h1 := congrArg String.data h
  simp only at h1
  have h2 := List.append_cancel_left h1
  have h3 := (List.cons.inj h2).2
  exact fmtInteger_injective a b (List.append_cancel_right h3)

theorem sprintfItemPath_ne_collection (base : String) (a : Int) :
    sprintfItemPath base a ≠ sprintfCollectionPath base := by
  unfold sprintfItemPath sprintfCollectionPath
  intro h
  have h0 := congrArg String.data h
  simp only at h0
  have h1 := List.append_cancel_left h0
  have h2 : '/' = '.' := (List.cons.inj h1).1
  exact absurd h2 (by decide)

theorem collectionPath_eq :
    sprintfCollectionPath inventoryItemsBasePath = "inventory_items.json" := by
  decide

theorem itemPath_eq (id : Int) :
    sprintfItemPath inventoryItemsBasePath id = "inventory_items/" ++ toString id ++ ".json" := by
  rw [sprintfItemPath_eq]
  rfl

/-- The session after `ListWithPagination`: the client has moved to the state
of its answer and one call has been recorded. -/
theorem lwp_session {σ Opt : Type} (c : Client σ Opt)
    (ex : String → Option Pagination × Option GoError) (s : Session σ Opt) (options : Opt) :
    (InventoryItemServiceOp.ListWithPagination c ex s options).1 =
      { client := (listResponse c s options).1,
        calls := s.calls ++ [Call.createAndDoGetHeaders "GET" "inventory_items.json" none options] } := by
  unfold InventoryItemServiceOp.ListWithPagination listResponse newInventoryItemsResource
  simp only [collectionPath_eq]
  split
  · rfl
  · split <;> rfl

theorem lwp_get_failed {σ Opt : Type} (c : Client σ Opt)
    (ex : String → Option Pagination × Option GoError) (s : Session σ Opt) (options : Opt)
    (e : GoError) (h : (listResponse c s options).2.2.2 = some e) :
    (InventoryItemServiceOp.ListWithPagination c ex s options).2 =
      (none, none, some (GoError.withMessage e "error getting resource with headers")) := by
  unfold listResponse at h
  unfold InventoryItemServiceOp.ListWithPagination newInventoryItemsResource
  simp only [collectionPath_eq, h]
  simp [errorsWrap]

theorem lwp_link_failed {σ Opt : Type} (c : Client σ Opt)
    (ex : String → Option Pagination × Option GoError) (s : Session σ Opt) (options : Opt)
    (e : GoError) (h : (listResponse c s options).2.2.2 = none)
    (hl : (ex ((listResponse c s options).2.2.1.Get "Link")).2 = some e) :
    (InventoryItemServiceOp.ListWithPagination c ex s options).2 =
      (none, none, some (GoError.withMessage e "error getting pagination from link header")) := by
  unfold listResponse at h hl
  unfold InventoryItemServiceOp.ListWithPagination newInventoryItemsResource
  simp only [collectionPath_eq, h, hl]
  simp [errorsWrap]

theorem lwp_succeeded {σ Opt : Type} (c : Client σ Opt)
    (ex : String → Option Pagination × Option GoError) (s : Session σ Opt) (options : Opt)
    (h : (listResponse c s options).2.2.2 = none)
    (hl : (ex ((listResponse c s options).2.2.1.Get "Link")).2 = none) :
    (InventoryItemServiceOp.ListWithPagination c ex s options).2 =
      ((listResponse c s options).2.1.InventoryItems,
       (ex ((listResponse c s options).2.2.1.Get "Link")).1, none) := by
  unfold listResponse at h hl ⊢
  unfold InventoryItemServiceOp.ListWithPagination newInventoryItemsResource
  simp only [collectionPath_eq, h, hl]
  simp

theorem list_session {σ Opt : Type} (c : Client σ Opt)
    (ex : String → Option Pagination × Option GoError) (s : Session σ Opt) (options : Opt) :
    (InventoryItemServiceOp.List c ex s options).1 =
      (InventoryItemServiceOp.ListWithPagination c ex s options).1 := by
  unfold InventoryItemServiceOp.List
  simp only
  split <;> rfl

theorem list_of_error {σ Opt : Type} (c : Client σ Opt)
    (ex : String → Option Pagination × Option GoError) (s : Session σ Opt) (options : Opt)
    (e : GoError) (h : (InventoryItemServiceOp.ListWithPagination c ex s options).2.2.2 = some e) :
    (InventoryItemServiceOp.List c ex s options).2 =
      (none, some (GoError.withMessage e "error in list subprocess")) := by
  unfold InventoryItemServiceOp.List
  simp [h, errorsWrap]

theorem list_of_success {σ Opt : Type} (c : Client σ Opt)
    (ex : String → Option Pagination × Option GoError) (s : Session σ Opt) (options : Opt)
    (h : (InventoryItemServiceOp.ListWithPagination c ex s options).2.2.2 = none) :
    (InventoryItemServiceOp.List c ex s options).2 =
      ((InventoryItemServiceOp.ListWithPagination c ex s options).2.1, none) := by
  unfold InventoryItemServiceOp.List
  simp [h]

theorem get_eq {σ Opt : Type} (c : Client σ Opt) (s : Session σ Opt) (id : Int) (options : Opt) :
    InventoryItemServiceOp.Get c s id options =
      ({ client := (getResponse c s id options).1,
         calls := s.calls ++ [Call.Get ("inventory_items/" ++ toString id ++ ".json") options] },
       (getResponse c s id options).2.1.InventoryItem, (getResponse c s id options).2.2) := by
  unfold InventoryItemServiceOp.Get getResponse newInventoryItemResource
  simp only [itemPath_eq]

theorem update_eq {σ Opt : Type} (c : Client σ Opt) (s : Session σ Opt) (item : InventoryItem) :
    InventoryItemServiceOp.Update c s item =
      ({ client := (putResponse c s item).1,
         calls := s.calls ++ [Call.Put ("inventory_items/" ++ toString item.ID ++ ".json")
           { InventoryItem := some item }] },
       (putResponse c s item).2.1.InventoryItem, (putResponse c s item).2.2) := by
  unfold InventoryItemServiceOp.Update putResponse newInventoryItemResource
  simp only [itemPath_eq]

/-- The three ways `ListWithPagination` can end. -/
theorem lwp_cases {σ Opt : Type} (c : Client σ Opt)
    (ex : String → Option Pagination × Option GoError) (s : Session σ Opt) (options : Opt) :
    (∃ e, (listResponse c s options).2.2.2 = some e ∧
      (InventoryItemServiceOp.ListWithPagination c ex s options).2 =
        (none, none, some (GoError.withMessage e "error getting resource with headers")))
    ∨ (∃ e, (listResponse c s options).2.2.2 = none ∧
      (ex ((listResponse c s options).2.2.1.Get "Link")).2 = some e ∧
      (InventoryItemServiceOp.ListWithPagination c ex s options).2 =
        (none, none, some (GoError.withMessage e "error getting pagination from link header")))
    ∨ ((listResponse c s options).2.2.2 = none ∧
      (ex ((listResponse c s options).2.2.1.Get "Link")).2 = none ∧
      (InventoryItemServiceOp.ListWithPagination c ex s options).2 =
        ((listResponse c s options).2.1.InventoryItems,
         (ex ((listResponse c s options).2.2.1.Get "Link")).1, none)) := by
  cases h : (listResponse c s options).2.2.2 with
  | some e => exact Or.inl ⟨e, rfl, lwp_get_failed c ex s options e h⟩
  | none =>
    cases hl : (ex ((listResponse c s options).2.2.1.Get "Link")).2 with
    | some e => exact Or.inr (Or.inl ⟨e, rfl, rfl, lwp_link_failed c ex s options e h hl⟩)
    | none => exact Or.inr (Or.inr ⟨rfl, rfl, lwp_succeeded c ex s options h hl⟩)

/-! ## Lemmas on error texts -/

/-- The two contexts of `ListWithPagination` give different texts whatever
follows them: they differ at their fifteenth character. -/
theorem resource_text_ne_pagination_text (x y : String) :
    "error getting resource with headers" ++ ": " ++ x ≠
      "error getting pagination from link header" ++ ": " ++ y := by
  intro h
  have h1 := congrArg String.data h
  simp only [String.data_append] at h1
  have h2 := congrArg (List.take 15) h1
  rw [List.append_assoc, List.take_append_of_le_length (by decide), List.append_assoc,
    List.take_append_of_le_length (by decide)] at h2
  exact absurd h2 (by decide)

/-- The context added by `List` in front of both texts keeps them different. -/
theorem list_text_ne (x y : String) :
    "error in list subprocess" ++ ": " ++ ("error getting resource with headers" ++ ": " ++ x) ≠
      "error in list subprocess" ++ ": " ++
        ("error getting pagination from link header" ++ ": " ++ y) := by
  intro h
  have h1 := congrArg String.data h
  simp only [String.data_append, List.append_assoc] at h1
  have h2 := List.append_cancel_left (List.append_cancel_left h1)
  apply resource_text_ne_pagination_text x y
  apply String.ext
  simp only [String.data_append, List.append_assoc]
  exact h2

/-- A wrapped error never has the text of its cause: the text is longer. -/
theorem withMessage_text_ne (e : GoError) (msg : String) :
    (GoError.withMessage e msg).Error ≠ e.Error := by
  intro h
  have h1 := congrArg String.length h
  simp only [GoError.Error, String.length_append] at h1
  have h2 : ": ".length = 2 := by decide
  omega

/-! ## The extractor on the headers of the specification -/

theorem extractPagination_next :
    extractPagination "<https://x/y?page_info=abc&limit=50>; rel=\"next\"" =
      (some { NextPageOptions := some [("page_info", "abc"), ("limit", "50")],
              PreviousPageOptions := none }, none) := by
  decide

theorem extractPagination_bogus :
    extractPagination "<https://x/y>; rel=\"bogus\"" =
      (none, some (GoError.leaf "unrecognized pagination relation")) := by
  decide

theorem extractPagination_both :
    extractPagination
        "<https://x/y?a=1&page_info=q>; rel=\"next\", <https://x/y?page_info=p>; rel=\"previous\"" =
      (some { NextPageOptions := some [("page_info", "q")],
              PreviousPageOptions := some [("page_info", "p")] }, none) := by
  decide

theorem extractPagination_malformed :
    extractPagination "https://x/y; rel=next" =
      (none, some (GoError.leaf "could not extract pagination link header")) := by
  decide

/-! ## The claims -/

/-- Claim C1: for every inventory item, whatever its identifier and fields,
`Update` records exactly one call on the shared client, a `Put` whose path is
`inventory_items/`, the identifier in decimal, `.json` and whose body is the
single-item envelope holding exactly the given item; the client moves to the
state of its answer, and `Update` returns the item of the response envelope as
the client filled it together with the client's error, unchanged.  An item
with identifier 42 is sent to `inventory_items/42.json`; identifiers 0 and
minus 7 are sent like any other, the latter with a minus sign before the
digit 7. -/
theorem update_puts_item_once {σ Opt : Type} (c : Client σ Opt) (s : Session σ Opt)
    (item : InventoryItem) :
    (InventoryItemServiceOp.Update c s item).1.calls =
        s.calls ++ [Call.Put ("inventory_items/" ++ toString item.ID ++ ".json")
          { InventoryItem := some item }]
    ∧ (InventoryItemServiceOp.Update c s item).1.client = (putResponse c s item).1
    ∧ (InventoryItemServiceOp.Update c s item).2.1 = (putResponse c s item).2.1.InventoryItem
    ∧ (InventoryItemServiceOp.Update c s item).2.2 = (putResponse c s item).2.2
    ∧ (InventoryItemServiceOp.Update c s { item with ID := 42 }).1.calls =
        s.calls ++ [Call.Put "inventory_items/42.json"
          { InventoryItem := some { item with ID := 42 } }]
    ∧ (InventoryItemServiceOp.Update c s { item with ID := -7 }).1.calls =
        s.calls ++ [Call.Put "inventory_items/-7.json"
          { InventoryItem := some { item with ID := -7 } }]
    ∧ (InventoryItemServiceOp.Update c s { item with ID := 0 }).1.calls =
        s.calls ++ [Call.Put "inventory_items/0.json"
          { InventoryItem := some { item with ID := 0 } }] := by
  refine ⟨?_, ?_, ?_, ?_, ?_, ?_, ?_⟩
  · rw [update_eq]
  · rw [update_eq]
  · rw [update_eq]
  · rw [update_eq]
  · rw [update_eq]; rfl
  · rw [update_eq]; rfl
  · rw [update_eq]; rfl

/-- Claim C2: for every identifier and every options value, `Get` records
exactly one call on the shared client, a `Get` whose path is
`inventory_items/`, the identifier in decimal, `.json` and whose options are
the ones given; it returns the item field of the envelope the client decoded
together with the client's error, unchanged.  When the client succeeds and
leaves the item field null, `Get` returns a nil item and a nil error. -/
theorem get_passes_through {σ Opt : Type} (c : Client σ Opt) (s : Session σ Opt) (id : Int)
    (options : Opt) :
    (InventoryItemServiceOp.Get c s id options).1.calls =
        s.calls ++ [Call.Get ("inventory_items/" ++ toString id ++ ".json") options]
    ∧ (InventoryItemServiceOp.Get c s id options).1.client = (getResponse c s id options).1
    ∧ (InventoryItemServiceOp.Get c s id options).2.1 =
        (getResponse c s id options).2.1.InventoryItem
    ∧ (InventoryItemServiceOp.Get c s id options).2.2 = (getResponse c s id options).2.2
    ∧ ((getResponse c s id options).2.2 = none →
        (getResponse c s id options).2.1.InventoryItem = none →
        (InventoryItemServiceOp.Get c s id options).2 = (none, none)) := by
  refine ⟨?_, ?_, ?_, ?_, ?_⟩
  · rw [get_eq]
  · rw [get_eq]
  · rw [get_eq]
  · rw [get_eq]
  · intro he hi
    rw [get_eq]
    simp [he, hi]

/-- Witness of C2: identifier 0 on a client that succeeds with a null item. -/
theorem get_passes_through_witness :
    (getResponse (okClient []) freshSession 0 [("fields", "id")]).2.2 = none
    ∧ (getResponse (okClient []) freshSession 0 [("fields", "id")]).2.1.InventoryItem = none
    ∧ InventoryItemServiceOp.Get (okClient []) freshSession 0 [("fields", "id")] =
        ({ client := 1, calls := [Call.Get "inventory_items/0.json" [("fields", "id")]] },
          none, none) :=
  have h := get_passes_through (okClient []) freshSession 0 [("fields", "id")]
  ⟨rfl, rfl, Prod.ext (Session.ext h.2.1 h.1) (h.2.2.2.2 rfl rfl)⟩

/-- Claim C3: for every options value, every shared client and every
pagination extractor, if `ListWithPagination` returns the items, some
pagination and a nil error, then `List` returns the same items, in the same
order, and a nil error (and leaves the session in the same state). -/
theorem list_returns_items_of_paginated {σ Opt : Type} (c : Client σ Opt)
    (ex : String → Option Pagination × Option GoError) (s : Session σ Opt) (options : Opt)
    (s' : Session σ Opt) (items : Option (List InventoryItem)) (pagination : Option Pagination)
    (h : InventoryItemServiceOp.ListWithPagination c ex s options =
      (s', items, pagination, none)) :
    InventoryItemServiceOp.List c ex s options = (s', items, none) := by
  have h1 : (InventoryItemServiceOp.ListWithPagination c ex s options).2.2.2 = none := by
    rw [h]
  have h2 := list_of_success c ex s options h1
  have h3 := list_session c ex s options
  rw [h] at h2 h3
  exact Prod.ext h3 h2

/-- Witness of C3: a list answered with `sampleItem` and a link to the next page. -/
theorem list_returns_items_of_paginated_witness :
    InventoryItemServiceOp.ListWithPagination
        (okClient ["<https://x/y?page_info=abc&limit=50>; rel=\"next\""]) extractPagination
        freshSession [("limit", "50")] =
      ({ client := 1,
         calls := [Call.createAndDoGetHeaders "GET" "inventory_items.json" none [("limit", "50")]] },
       some [sampleItem],
       some { NextPageOptions := some [("page_info", "abc"), ("limit", "50")],
              PreviousPageOptions := none },
       none)
    ∧ InventoryItemServiceOp.List
        (okClient ["<https://x/y?page_info=abc&limit=50>; rel=\"next\""]) extractPagination
        freshSession [("limit", "50")] =
      ({ client := 1,
         calls := [Call.createAndDoGetHeaders "GET" "inventory_items.json" none [("limit", "50")]] },
       some [sampleItem], none) :=
  ⟨by decide,
    list_returns_items_of_paginated
      (okClient ["<https://x/y?page_info=abc&limit=50>; rel=\"next\""]) extractPagination
      freshSession [("limit", "50")]
      { client := 1,
        calls := [Call.createAndDoGetHeaders "GET" "inventory_items.json" none [("limit", "50")]] }
      (some [sampleItem])
      (some { NextPageOptions := some [("page_info", "abc"), ("limit", "50")],
              PreviousPageOptions := none })
      (by decide)⟩

/-- Claim C4: `List` returns a non-nil error exactly when `ListWithPagination`
returns a non-nil error for the same options; in that case `List` returns a
nil item sequence and the underlying error wrapped with the context
`error in list subprocess`.  In particular, when the body was decoded but the
extractor rejects the `Link` header, `List` fails although it discards the
pagination; this is so for the header `<https://x/y>; rel="bogus"` and the
extractor of the specification. -/
theorem list_fails_iff_paginated_fails {σ Opt : Type} (c : Client σ Opt)
    (ex : String → Option Pagination × Option GoError) (s : Session σ Opt) (options : Opt) :
    ((InventoryItemServiceOp.List c ex s options).2.2 ≠ none ↔
      (InventoryItemServiceOp.ListWithPagination c ex s options).2.2.2 ≠ none)
    ∧ (∀ e, (InventoryItemServiceOp.ListWithPagination c ex s options).2.2.2 = some e →
        (InventoryItemServiceOp.List c ex s options).2 =
          (none, some (GoError.withMessage e "error in list subprocess")))
    ∧ (∀ e, (listResponse c s options).2.2.2 = none →
        (ex ((listResponse c s options).2.2.1.Get "Link")).2 = some e →
        (InventoryItemServiceOp.List c ex s options).2 =
          (none, some (GoError.withMessage
            (GoError.withMessage e "error getting pagination from link header")
            "error in list subprocess")))
    ∧ ((listResponse c s options).2.2.2 = none →
        (listResponse c s options).2.2.1.Get "Link" = "<https://x/y>; rel=\"bogus\"" →
        (InventoryItemServiceOp.List c extractPagination s options).2.1 = none ∧
        (InventoryItemServiceOp.List c extractPagination s options).2.2 ≠ none) := by
  refine ⟨?_, ?_, ?_, ?_⟩
  · cases h : (InventoryItemServiceOp.ListWithPagination c ex s options).2.2.2 with
    | none => rw [list_of_success c ex s options h]
    | some e => rw [list_of_error c ex s options e h]; simp
  · intro e h
    exact list_of_error c ex s options e h
  · intro e h hl
    apply list_of_error
    rw [lwp_link_failed c ex s options e h hl]
  · intro h hl
    have hx : (extractPagination ((listResponse c s options).2.2.1.Get "Link")).2 =
        some (GoError.leaf "unrecognized pagination relation") := by
      rw [hl]; decide
    have h1 := lwp_link_failed c extractPagination s options _ h hx
    have h2 := list_of_error c extractPagination s options
      (GoError.withMessage (GoError.leaf "unrecognized pagination relation")
        "error getting pagination from link header") (by rw [h1])
    rw [h2]
    simp

/-- Witness of C4: a list that decodes but carries the header
`<https://x/y>; rel="bogus"`. -/
theorem list_fails_iff_paginated_fails_witness :
    (listResponse (okClient ["<https://x/y>; rel=\"bogus\""]) freshSession []).2.2.2 = none
    ∧ (listResponse (okClient ["<https://x/y>; rel=\"bogus\""]) freshSession []).2.2.1.Get "Link" =
        "<https://x/y>; rel=\"bogus\""
    ∧ (InventoryItemServiceOp.ListWithPagination (okClient ["<https://x/y>; rel=\"bogus\""])
        extractPagination freshSession []).2.2.2 =
        some (GoError.withMessage (GoError.leaf "unrecognized pagination relation")
          "error getting pagination from link header")
    ∧ (InventoryItemServiceOp.List (okClient ["<https://x/y>; rel=\"bogus\""])
        extractPagination freshSession []).2 =
        (none, some (GoError.withMessage
          (GoError.withMessage (GoError.leaf "unrecognized pagination relation")
            "error getting pagination from link header")
          "error in list subprocess"))
    ∧ (InventoryItemServiceOp.List (okClient ["<https://x/y>; rel=\"bogus\""])
        extractPagination freshSession []).2.1 = none
    ∧ (InventoryItemServiceOp.List (okClient ["<https://x/y>; rel=\"bogus\""])
        extractPagination freshSession []).2.2 ≠ none :=
  have h := list_fails_iff_paginated_fails (okClient ["<https://x/y>; rel=\"bogus\""])
    extractPagination freshSession []
  ⟨rfl, by decide, by decide, h.2.1 _ (by decide), (h.2.2.2 rfl (by decide)).1,
    h.1.mpr (by decide)⟩

/-- Claim C5: `ListWithPagination` returns no partial results.  Whenever the
error it returns is non-nil, the items and the pagination it returns are both
nil; this happens when the client's request fails and when the request
succeeds but the extractor rejects the `Link` header.  Whenever it returns a
non-nil pagination, the error is nil and the items are exactly the sequence of
the collection envelope as the client decoded it. -/
theorem listWithPagination_all_or_nothing {σ Opt : Type} (c : Client σ Opt)
    (ex : String → Option Pagination × Option GoError) (s : Session σ Opt) (options : Opt) :
    ((InventoryItemServiceOp.ListWithPagination c ex s options).2.2.2 ≠ none →
      (InventoryItemServiceOp.ListWithPagination c ex s options).2.1 = none ∧
      (InventoryItemServiceOp.ListWithPagination c ex s options).2.2.1 = none)
    ∧ ((listResponse c s options).2.2.2 ≠ none →
      (InventoryItemServiceOp.ListWithPagination c ex s options).2.2.2 ≠ none)
    ∧ ((listResponse c s options).2.2.2 = none →
      (ex ((listResponse c s options).2.2.1.Get "Link")).2 ≠ none →
      (InventoryItemServiceOp.ListWithPagination c ex s options).2.2.2 ≠ none)
    ∧ ((InventoryItemServiceOp.ListWithPagination c ex s options).2.2.1 ≠ none →
      (InventoryItemServiceOp.ListWithPagination c ex s options).2.2.2 = none ∧
      (InventoryItemServiceOp.ListWithPagination c ex s options).2.1 =
        (listResponse c s options).2.1.InventoryItems) := by
  rcases lwp_cases c ex s options with ⟨e, he, h⟩ | ⟨e, he, hl, h⟩ | ⟨he, hl, h⟩
  · rw [h]
    simp [he]
  · rw [h]
    simp [he, hl]
  · rw [h]
    simp [he, hl]

/-- Witness of C5: a request that fails, a header that is rejected after a
successful decode, and a list that comes with a link to the next page. -/
theorem listWithPagination_all_or_nothing_witness :
    ((InventoryItemServiceOp.ListWithPagination halfwayClient extractPagination
        freshSession []).2.2.2 ≠ none
      ∧ (InventoryItemServiceOp.ListWithPagination halfwayClient extractPagination
        freshSession []).2.1 = none
      ∧ (InventoryItemServiceOp.ListWithPagination halfwayClient extractPagination
        freshSession []).2.2.1 = none)
    ∧ ((listResponse (okClient ["<https://x/y>; rel=\"bogus\""]) freshSession []).2.2.2 = none
      ∧ (extractPagination ((listResponse (okClient ["<https://x/y>; rel=\"bogus\""])
          freshSession []).2.2.1.Get "Link")).2 ≠ none
      ∧ (InventoryItemServiceOp.ListWithPagination (okClient ["<https://x/y>; rel=\"bogus\""])
          extractPagination freshSession []).2.2.2 ≠ none)
    ∧ ((InventoryItemServiceOp.ListWithPagination
          (okClient ["<https://x/y?page_info=abc>; rel=\"previous\""]) extractPagination
          freshSession []).2.2.1 ≠ none
      ∧ (InventoryItemServiceOp.ListWithPagination
          (okClient ["<https://x/y?page_info=abc>; rel=\"previous\""]) extractPagination
          freshSession []).2.2.2 = none
      ∧ (InventoryItemServiceOp.ListWithPagination
          (okClient ["<https://x/y?page_info=abc>; rel=\"previous\""]) extractPagination
          freshSession []).2.1 = some [sampleItem]) :=
  have h1 := listWithPagination_all_or_nothing halfwayClient extractPagination freshSession []
  have h2 := listWithPagination_all_or_nothing (okClient ["<https://x/y>; rel=\"bogus\""])
    extractPagination freshSession []
  have h3 := listWithPagination_all_or_nothing
    (okClient ["<https://x/y?page_info=abc>; rel=\"previous\""]) extractPagination freshSession []
  ⟨⟨h1.2.1 (by decide), (h1.1 (h1.2.1 (by decide))).1, (h1.1 (h1.2.1 (by decide))).2⟩,
   ⟨rfl, by decide, h2.2.2.1 rfl (by decide)⟩,
   ⟨by decide, (h3.2.2.2 (by decide)).1, (h3.2.2.2 (by decide)).2⟩⟩

/-- Counterexample to C6: a client that fills the envelope and then reports
an error makes `Get` and `Update` return a non-nil item with a non-nil error. -/
theorem get_update_item_with_error :
    (InventoryItemServiceOp.Get halfwayClient freshSession 42 []).2.2 =
        some (GoError.leaf "cannot unmarshal")
    ∧ (InventoryItemServiceOp.Get halfwayClient freshSession 42 []).2.1 = some sampleItem
    ∧ (InventoryItemServiceOp.Update halfwayClient freshSession sampleItem).2.2 =
        some (GoError.leaf "cannot unmarshal")
    ∧ (InventoryItemServiceOp.Update halfwayClient freshSession sampleItem).2.1 =
        some sampleItem := by
  refine ⟨?_, ?_, ?_, ?_⟩ <;> rfl

/-- Claim C6, amended: whenever `Get` or `Update` returns a non-nil error, the
item it returns is the item field of the response envelope exactly as the
shared client left it; it is nil whenever the client left the freshly
allocated envelope as it was. -/
theorem get_update_error_item {σ Opt : Type} (c : Client σ Opt) (s : Session σ Opt) (id : Int)
    (options : Opt) (item : InventoryItem) :
    ((InventoryItemServiceOp.Get c s id options).2.2 ≠ none →
      (InventoryItemServiceOp.Get c s id options).2.1 =
        (getResponse c s id options).2.1.InventoryItem
      ∧ ((getResponse c s id options).2.1 = { InventoryItem := none } →
        (InventoryItemServiceOp.Get c s id options).2.1 = none))
    ∧ ((InventoryItemServiceOp.Update c s item).2.2 ≠ none →
      (InventoryItemServiceOp.Update c s item).2.1 = (putResponse c s item).2.1.InventoryItem
      ∧ ((putResponse c s item).2.1 = { InventoryItem := none } →
        (InventoryItemServiceOp.Update c s item).2.1 = none)) := by
  rw [get_eq, update_eq]
  refine ⟨fun _ => ⟨rfl, fun h => ?_⟩, fun _ => ⟨rfl, fun h => ?_⟩⟩
  · simp only [h]
  · simp only [h]

/-- Witness of C6, amended: a client that is down leaves the envelope as it was. -/
theorem get_update_error_item_witness :
    ((InventoryItemServiceOp.Get downClient freshSession 42 []).2.2 ≠ none
      ∧ (getResponse downClient freshSession 42 []).2.1 = { InventoryItem := none }
      ∧ (InventoryItemServiceOp.Get downClient freshSession 42 []).2.1 = none)
    ∧ ((InventoryItemServiceOp.Update downClient freshSession sampleItem).2.2 ≠ none
      ∧ (putResponse downClient freshSession sampleItem).2.1 = { InventoryItem := none }
      ∧ (InventoryItemServiceOp.Update downClient freshSession sampleItem).2.1 = none) :=
  have h := get_update_error_item downClient freshSession 42 [] sampleItem
  ⟨⟨by decide, rfl, (h.1 (by decide)).2 rfl⟩, ⟨by decide, rfl, (h.2 (by decide)).2 rfl⟩⟩

/-- Counterexample to C7: when the client's request fails with
`connection refused`, the error of `ListWithPagination` is not that error: it
is another value, with another text. -/
theorem listWithPagination_get_error_not_verbatim :
    (listResponse downClient freshSession []).2.2.2 = some (GoError.leaf "connection refused")
    ∧ (InventoryItemServiceOp.ListWithPagination downClient extractPagination
        freshSession []).2.2.2 ≠ some (GoError.leaf "connection refused")
    ∧ (InventoryItemServiceOp.ListWithPagination downClient extractPagination
        freshSession []).2.2.2.map GoError.Error =
        some "error getting resource with headers: connection refused" := by
  refine ⟨rfl, by decide, by decide⟩

/-- Claim C7, amended: when the shared client's request inside
`ListWithPagination` fails with error `e`, `ListWithPagination` returns nil
items, nil pagination and `e` wrapped with the context
`error getting resource with headers`: the text of the returned error is that
context, a colon and a space, then the text of `e`, and it is never the text
of `e` alone. -/
theorem listWithPagination_get_error_wrapped {σ Opt : Type} (c : Client σ Opt)
    (ex : String → Option Pagination × Option GoError) (s : Session σ Opt) (options : Opt)
    (e : GoError) (h : (listResponse c s options).2.2.2 = some e) :
    (InventoryItemServiceOp.ListWithPagination c ex s options).2 =
      (none, none, some (GoError.withMessage e "error getting resource with headers"))
    ∧ (GoError.withMessage e "error getting resource with headers").Error =
      "error getting resource with headers: " ++ e.Error
    ∧ (GoError.withMessage e "error getting resource with headers").Error ≠ e.Error :=
  ⟨lwp_get_failed c ex s options e h, rfl, withMessage_text_ne e _⟩

/-- Witness of C7, amended: a client that is down. -/
theorem listWithPagination_get_error_wrapped_witness :
    (listResponse downClient freshSession []).2.2.2 = some (GoError.leaf "connection refused")
    ∧ (InventoryItemServiceOp.ListWithPagination downClient extractPagination
        freshSession []).2 =
      (none, none, some (GoError.withMessage (GoError.leaf "connection refused")
        "error getting resource with headers")) :=
  ⟨rfl, (listWithPagination_get_error_wrapped downClient extractPagination freshSession []
    (GoError.leaf "connection refused") rfl).1⟩

/-- Claim C8: the error of `ListWithPagination` when the client's request
fails and its error when the request succeeds but the `Link` header is
rejected never have the same text, whatever the underlying errors `u1` and
`u2` are: the first text starts with `error getting resource with headers: `,
the second with `error getting pagination from link header: `.  The errors
`List` returns in the two situations differ in the same way. -/
theorem failure_texts_differ {σ Opt : Type} (c c' : Client σ Opt)
    (ex ex' : String → Option Pagination × Option GoError) (s s' : Session σ Opt)
    (options options' : Opt) (u1 u2 : GoError)
    (hget : (listResponse c s options).2.2.2 = some u1)
    (hok : (listResponse c' s' options').2.2.2 = none)
    (hlink : (ex' ((listResponse c' s' options').2.2.1.Get "Link")).2 = some u2) :
    ∃ e1 e2 l1 l2,
      (InventoryItemServiceOp.ListWithPagination c ex s options).2.2.2 = some e1
      ∧ (InventoryItemServiceOp.ListWithPagination c' ex' s' options').2.2.2 = some e2
      ∧ e1.Error = "error getting resource with headers: " ++ u1.Error
      ∧ e2.Error = "error getting pagination from link header: " ++ u2.Error
      ∧ e1.Error ≠ e2.Error
      ∧ (InventoryItemServiceOp.List c ex s options).2.2 = some l1
      ∧ (InventoryItemServiceOp.List c' ex' s' options').2.2 = some l2
      ∧ l1.Error = "error in list subprocess: " ++ e1.Error
      ∧ l2.Error = "error in list subprocess: " ++ e2.Error
      ∧ l1.Error ≠ l2.Error := by
  have h1 := lwp_get_failed c ex s options u1 hget
  have h2 := lwp_link_failed c' ex' s' options' u2 hok hlink
  have h3 := list_of_error c ex s options
    (GoError.withMessage u1 "error getting resource with headers") (by rw [h1])
  have h4 := list_of_error c' ex' s' options'
    (GoError.withMessage u2 "error getting pagination from link header") (by rw [h2])
  refine ⟨GoError.withMessage u1 "error getting resource with headers",
    GoError.withMessage u2 "error getting pagination from link header",
    GoError.withMessage (GoError.withMessage u1 "error getting resource with headers")
      "error in list subprocess",
    GoError.withMessage (GoError.withMessage u2 "error getting pagination from link header")
      "error in list subprocess",
    by rw [h1], by rw [h2], rfl, rfl, ?_, by rw [h3], by rw [h4], rfl, rfl, ?_⟩
  · exact resource_text_ne_pagination_text u1.Error u2.Error
  · exact list_text_ne u1.Error u2.Error

/-- Witness of C8: a client that is down against a client whose list carries
the header `<https://x/y>; rel="bogus"`. -/
theorem failure_texts_differ_witness :
    (listResponse downClient freshSession []).2.2.2 = some (GoError.leaf "connection refused")
    ∧ (listResponse (okClient ["<https://x/y>; rel=\"bogus\""]) freshSession []).2.2.2 = none
    ∧ (extractPagination ((listResponse (okClient ["<https://x/y>; rel=\"bogus\""])
        freshSession []).2.2.1.Get "Link")).2 =
        some (GoError.leaf "unrecognized pagination relation")
    ∧ ∃ e1 e2 l1 l2,
      (InventoryItemServiceOp.ListWithPagination downClient extractPagination
        freshSession []).2.2.2 = some e1
      ∧ (InventoryItemServiceOp.ListWithPagination (okClient ["<https://x/y>; rel=\"bogus\""])
        extractPagination freshSession []).2.2.2 = some e2
      ∧ e1.Error = "error getting resource with headers: " ++
          (GoError.leaf "connection refused").Error
      ∧ e2.Error = "error getting pagination from link header: " ++
          (GoError.leaf "unrecognized pagination relation").Error
      ∧ e1.Error ≠ e2.Error
      ∧ (InventoryItemServiceOp.List downClient extractPagination freshSession []).2.2 = some l1
      ∧ (InventoryItemServiceOp.List (okClient ["<https://x/y>; rel=\"bogus\""])
        extractPagination freshSession []).2.2 = some l2
      ∧ l1.Error = "error in list subprocess: " ++ e1.Error
      ∧ l2.Error = "error in list subprocess: " ++ e2.Error
      ∧ l1.Error ≠ l2.Error :=
  ⟨rfl, rfl, by decide,
    failure_texts_differ downClient (okClient ["<https://x/y>; rel=\"bogus\""])
      extractPagination extractPagination freshSession freshSession [] []
      (GoError.leaf "connection refused") (GoError.leaf "unrecognized pagination relation")
      rfl rfl (by decide)⟩

/-- Claim C9: for every options value, `ListWithPagination` records exactly
one call on the shared client, `createAndDoGetHeaders` with method `GET`,
path `inventory_items.json`, a nil body and the options given.  When that call
succeeds and the response has no `Link` header, or an empty one, the
extractor is given the empty string (the outcome is that of the extractor on
the empty string, whatever the extractor), and with the extractor of the
specification `ListWithPagination` returns the decoded items, the empty cursor
set (no next bundle, no previous bundle) and a nil error. -/
theorem listWithPagination_without_link {σ Opt : Type} (c : Client σ Opt) (s : Session σ Opt)
    (options : Opt) :
    (∀ ex, (InventoryItemServiceOp.ListWithPagination c ex s options).1.calls =
      s.calls ++ [Call.createAndDoGetHeaders "GET" "inventory_items.json" none options])
    ∧ ((listResponse c s options).2.2.2 = none →
      ((listResponse c s options).2.2.1.lookup "Link" = none
        ∨ (listResponse c s options).2.2.1.lookup "Link" = some []
        ∨ ∃ vs, (listResponse c s options).2.2.1.lookup "Link" = some ("" :: vs)) →
      (∀ ex, (ex "").2 = none →
        (InventoryItemServiceOp.ListWithPagination c ex s options).2 =
          ((listResponse c s options).2.1.InventoryItems, (ex "").1, none))
      ∧ (∀ ex e, (ex "").2 = some e →
        (InventoryItemServiceOp.ListWithPagination c ex s options).2 =
          (none, none, some (GoError.withMessage e "error getting pagination from link header")))
      ∧ InventoryItemServiceOp.ListWithPagination c extractPagination s options =
          ({ client := (listResponse c s options).1,
             calls := s.calls ++
               [Call.createAndDoGetHeaders "GET" "inventory_items.json" none options] },
           (listResponse c s options).2.1.InventoryItems,
           some { NextPageOptions := none, PreviousPageOptions := none }, none)) := by
  refine ⟨fun ex => by rw [lwp_session], fun hok hlink => ?_⟩
  have hempty : (listResponse c s options).2.2.1.Get "Link" = "" := by
    unfold Header.Get
    rcases hlink with h | h | ⟨vs, h⟩ <;> rw [h]
  refine ⟨fun ex hx => ?_, fun ex e hx => ?_, ?_⟩
  · have h := lwp_succeeded c ex s options hok (by rw [hempty]; exact hx)
    rw [hempty] at h
    exact h
  · exact lwp_link_failed c ex s options e hok (by rw [hempty]; exact hx)
  · have h := lwp_succeeded c extractPagination s options hok (by rw [hempty]; rfl)
    rw [hempty] at h
    exact Prod.ext (lwp_session c extractPagination s options) h

/-- Witness of C9: a list answered with `sampleItem` and an empty `Link` header. -/
theorem listWithPagination_without_link_witness :
    (listResponse (okClient []) freshSession [("limit", "50")]).2.2.2 = none
    ∧ (listResponse (okClient []) freshSession [("limit", "50")]).2.2.1.lookup "Link" = some []
    ∧ InventoryItemServiceOp.ListWithPagination (okClient []) extractPagination freshSession
        [("limit", "50")] =
      ({ client := 1,
         calls := [Call.createAndDoGetHeaders "GET" "inventory_items.json" none [("limit", "50")]] },
       some [sampleItem], some { NextPageOptions := none, PreviousPageOptions := none }, none) :=
  ⟨rfl, by decide,
    ((listWithPagination_without_link (okClient []) freshSession [("limit", "50")]).2 rfl
      (Or.inr (Or.inl (by decide)))).2.2⟩

/-- Claim C10: the item path of `Get` and `Update` is injective in the
identifier (two integers, hence two `int64` identifiers, with the same item
path are equal), no item path is the collection path `inventory_items.json`,
and `Get` of an identifier and `Update` of an item with that identifier
address the same path. -/
theorem item_path_injective (a b : Int) :
    (sprintfItemPath inventoryItemsBasePath a = sprintfItemPath inventoryItemsBasePath b → a = b)
    ∧ ("inventory_items/" ++ toString a ++ ".json" = "inventory_items/" ++ toString b ++ ".json" →
      a = b)
    ∧ sprintfItemPath inventoryItemsBasePath a ≠ sprintfCollectionPath inventoryItemsBasePath
    ∧ "inventory_items/" ++ toString a ++ ".json" ≠ "inventory_items.json"
    ∧ (∀ (σ Opt : Type) (c c' : Client σ Opt) (s s' : Session σ Opt) (options : Opt)
        (item : InventoryItem),
      item.ID = a →
      (InventoryItemServiceOp.Get c s a options).1.calls =
        s.calls ++ [Call.Get ("inventory_items/" ++ toString a ++ ".json") options]
      ∧ (InventoryItemServiceOp.Update c' s' item).1.calls =
        s'.calls ++ [Call.Put ("inventory_items/" ++ toString a ++ ".json")
          { InventoryItem := some item }]) := by
  refine ⟨sprintfItemPath_injective _ a b, ?_, sprintfItemPath_ne_collection _ a, ?_, ?_⟩
  · intro h
    rw [← itemPath_eq, ← itemPath_eq] at h
    exact sprintfItemPath_injective _ a b h
  · rw [← itemPath_eq, ← collectionPath_eq]
    exact sprintfItemPath_ne_collection _ a
  · intro σ Opt c c' s s' options item hid
    rw [get_eq, update_eq, hid]
    exact ⟨rfl, rfl⟩

/-- Witness of C10: identifier 42. -/
theorem item_path_injective_witness :
    sprintfItemPath inventoryItemsBasePath 42 = sprintfItemPath inventoryItemsBasePath 42
    ∧ sampleItem.ID = 42
    ∧ (42 : Int) = 42
    ∧ (InventoryItemServiceOp.Get (okClient []) freshSession 42 []).1.calls =
        [] ++ [Call.Get ("inventory_items/" ++ toString (42 : Int) ++ ".json") []]
    ∧ (InventoryItemServiceOp.Update downClient freshSession sampleItem).1.calls =
        [] ++ [Call.Put ("inventory_items/" ++ toString (42 : Int) ++ ".json")
          { InventoryItem := some sampleItem }] :=
  have h := item_path_injective 42 42
  ⟨rfl, rfl, h.1 rfl,
    (h.2.2.2.2 _ _ (okClient []) downClient freshSession freshSession [] sampleItem rfl).1,
    (h.2.2.2.2 _ _ (okClient []) downClient freshSession freshSession [] sampleItem rfl).2⟩

end GoShopify
